import Mathlib

/-!
# Verification of `custom-resource-helper.ts`

A shallow embedding of `src/custom-resource-helper.ts`, the core of the
`cloudcomponents/custom-resource-helper` library, together with theorems
about its specification.

Modelling conventions:

* JavaScript promises that either resolve or reject are modelled with
  `Except Err α`; a JS error object is an `Err`, whose `message` field is
  `Option String` (`none` models a rejection value without a `message`
  property, `some ""` models an error with an empty message).
* The logging subsystem is an external collaborator (out of the core per
  the spec); log calls are elided, they have no effect on the data flow.
* The outbound HTTP transport (`axios.put`) is a parameter
  `transport : PutCall → Except Err Unit`; each attempted PUT is recorded
  in an output list, in order, so the number of PUT attempts and their
  contents can be reasoned about.
* `Promise.race([handleRessource ..., handleTimeout ...])` is modelled by a
  boolean `timerWins` telling which of the two racing tasks settles first.
  `handleTimeout` never resolves, so when the timer wins the race the raced
  value is its rejection; the loser's continuation is never observed (the
  host freezes the sandbox once the entry promise settles), so the raced
  branch that lost contributes no PUT.
* `Record<string, unknown>` response data is modelled as an association
  list `List (String × String)`; the claims only ever compare such data
  for equality or with the empty mapping, so string values suffice.
* TypeScript types are erased at runtime and the dispatch is a `switch` on
  the string `event.RequestType`, so the event is one flat structure whose
  `RequestType` is an arbitrary `String`.
-/

/-- Response data mapping (`Record<string, unknown>` in the source),
modelled as an association list with string values. -/
abbrev RespData : Type := List (String × String)

/-- A JavaScript error / promise rejection value.  `message = none` models a
rejection carrying no `message` property. -/
structure Err where
  message : Option String
deriving DecidableEq, Repr

/-- A CloudFormation custom-resource event (`CloudFormationCustomResourceEvent`).
`RequestType` is kept as a raw string because the source dispatches on it with
a `switch` and must handle unrecognized values.  `PhysicalResourceId` and
`OldResourceProperties` are absent on Create events, hence `Option`. -/
structure CfnEvent where
  RequestType : String
  ResponseURL : String
  StackId : String
  RequestId : String
  LogicalResourceId : String
  ServiceToken : String
  ResourceProperties : RespData
  OldResourceProperties : Option RespData
  PhysicalResourceId : Option String
deriving DecidableEq, Repr

/-- The Lambda `Context`: only the members the source reads. -/
structure Ctx where
  logStreamName : String
  remainingTimeInMillis : Int
deriving DecidableEq, Repr

/-- `ResourceHandlerReturn` from the source: `physicalResourceId` required,
`responseData` optional. -/
structure ResourceHandlerReturn where
  physicalResourceId : String
  responseData : Option RespData
deriving DecidableEq, Repr

/-- A user `onCreate`/`onUpdate` handler: async, resolving to a
`ResourceHandlerReturn` or rejecting.  The logger argument is elided. -/
def CrUpHandler : Type := CfnEvent → Ctx → Except Err ResourceHandlerReturn

/-- A user `onDelete` handler: async, resolving to void or rejecting. -/
def DelHandler : Type := CfnEvent → Ctx → Except Err Unit

/-- The `ResourceHandler` record of up to three optional handlers. -/
structure ResourceHandler where
  onCreate : Option CrUpHandler
  onUpdate : Option CrUpHandler
  onDelete : Option DelHandler

/-- `'SUCCESS' | 'FAILED'` status of a response. -/
inductive RStatus where
  | SUCCESS
  | FAILED
deriving DecidableEq, Repr

/-- The string that `JSON.stringify` produces for an `RStatus` value. -/
def RStatus.toStr : RStatus → String
  | .SUCCESS => "SUCCESS"
  | .FAILED => "FAILED"

/-- `SendResponseDetails` from the source. -/
structure SendResponseDetails where
  responseStatus : RStatus
  responseData : Option RespData
  physicalResourceId : Option String
  reason : Option String
deriving DecidableEq, Repr

/-- JavaScript `x || d` on an optional string: `undefined` and the empty
string are falsy, any other string is returned unchanged. -/
def jsOrStr (x : Option String) (d : String) : String :=
  match x with
  | none => d
  | some s => if s = "" then d else s

/-- JavaScript `x || {}` on optional response data: an object is always
truthy, so only `undefined` is replaced. -/
def jsOrData (x : Option RespData) : RespData :=
  match x with
  | none => ([] : List (String × String))
  | some d => d

/-- One hexadecimal digit, lower case, as produced by `JSON.stringify` in
`\u00XX` escapes. -/
def hexDigitChar (n : Nat) : Char :=
  if n < 10 then Char.ofNat (48 + n) else Char.ofNat (87 + n)

/-- The escape `JSON.stringify` applies to one character inside a string
literal: quote, backslash, the named control escapes, `\u00XX` for other
control characters, every other character verbatim. -/
def jsonEscapeChar (c : Char) : String :=
  if c = '"' then "\\\""
  else if c = '\\' then "\\\\"
  else if c = '\x08' then "\\b"
  else if c = '\x09' then "\\t"
  else if c = '\x0a' then "\\n"
  else if c = '\x0c' then "\\f"
  else if c = '\x0d' then "\\r"
  else if c.toNat < 0x20 then
    "\\u00" ++ String.singleton (hexDigitChar (c.toNat / 16))
      ++ String.singleton (hexDigitChar (c.toNat % 16))
  else String.singleton c

/-- `JSON.stringify` of a string value (quotes around the escaped body). -/
def renderJsonString (s : String) : String :=
  "\"" ++ String.join (s.data.map jsonEscapeChar) ++ "\""

/-- `JSON.stringify` of a flat object with the given pre-rendered field
values, in insertion order, compact (no whitespace), as `JSON.stringify`
prints object literals. -/
def renderObj (kvs : List (String × String)) : String :=
  "\x7b" ++ String.intercalate "," (kvs.map (fun kv => renderJsonString kv.1 ++ ":" ++ kv.2)) ++ "\x7d"

/-- `JSON.stringify` of a response-data mapping. -/
def renderData (d : RespData) : String :=
  renderObj (d.map (fun kv => (kv.1, renderJsonString kv.2)))

/-- The response envelope, field for field the object literal built inside
`sendResponse` before `JSON.stringify`. -/
structure Envelope where
  Status : RStatus
  Reason : String
  PhysicalResourceId : String
  StackId : String
  RequestId : String
  LogicalResourceId : String
  Data : RespData
deriving DecidableEq, Repr

/-- The envelope's fields in the order `sendResponse` writes them, each with
its rendered JSON value. -/
def envelopeKeyVals (e : Envelope) : List (String × String) :=
  [("Status", renderJsonString e.Status.toStr),
   ("Reason", renderJsonString e.Reason),
   ("PhysicalResourceId", renderJsonString e.PhysicalResourceId),
   ("StackId", renderJsonString e.StackId),
   ("RequestId", renderJsonString e.RequestId),
   ("LogicalResourceId", renderJsonString e.LogicalResourceId),
   ("Data", renderData e.Data)]

/-- `JSON.stringify` of the whole envelope: the `responseBody` string. -/
def renderEnvelope (e : Envelope) : String :=
  renderObj (envelopeKeyVals e)

/-- The length of a string in UTF-16 code units, which is what the
JavaScript `String.prototype.length` used for the content-length header
counts: astral characters count twice, all others once. -/
def jsStringLength (s : String) : Nat :=
  s.data.foldl (fun n c => n + (if c.toNat ≥ 0x10000 then 2 else 1)) 0

/-- One outbound `axios.put` attempt: the URL, the envelope it serializes,
the serialized body and the two explicit headers from the source. -/
structure PutCall where
  url : String
  envelope : Envelope
  body : String
  contentType : String
  contentLength : Nat
deriving DecidableEq, Repr

/-- The outbound HTTP transport: resolves or rejects each PUT attempt. -/
def Transport : Type := PutCall → Except Err Unit

/-- The envelope `sendResponse` builds: the `||` defaults applied to reason
and physical resource id, the stack coordinates copied from the event. -/
def mkEnvelope (event : CfnEvent) (ctx : Ctx) (d : SendResponseDetails) : Envelope :=
  { Status := d.responseStatus,
    Reason := jsOrStr d.reason
      ("See the details in CloudWatch Log Stream: " ++ ctx.logStreamName),
    PhysicalResourceId := jsOrStr d.physicalResourceId "None",
    StackId := event.StackId,
    RequestId := event.RequestId,
    LogicalResourceId := event.LogicalResourceId,
    Data := jsOrData d.responseData }

/-- The single `axios.put` call `sendResponse` issues: target
`event.ResponseURL`, the serialized envelope as body, an empty content-type
header and a content-length header of `responseBody.length` (JavaScript
string length, i.e. UTF-16 code units). -/
def mkPut (event : CfnEvent) (ctx : Ctx) (d : SendResponseDetails) : PutCall :=
  { url := event.ResponseURL,
    envelope := mkEnvelope event ctx d,
    body := renderEnvelope (mkEnvelope event ctx d),
    contentType := "",
    contentLength := jsStringLength (renderEnvelope (mkEnvelope event ctx d)) }

/-- `sendResponse` from the source: build the envelope (applying the `||`
defaults), serialize it, attempt exactly one PUT, and re-raise the
transport's error if the PUT fails.  Returns the list of PUT attempts made
and the promise outcome. -/
def sendResponse (transport : Transport) (event : CfnEvent) (ctx : Ctx)
    (d : SendResponseDetails) : List PutCall × Except Err Unit :=
  ([mkPut event ctx d],
    match transport (mkPut event ctx d) with
    | Except.ok _ => Except.ok ()
    | Except.error e => Except.error e)

/-- The `switch (event.RequestType)` of `handleRessource`: select the
matching optional handler, await it, and produce the
`(physicalResourceId, responseData)` pair that the surrounding function
initialises to `("None", {})`.  A missing handler leaves the defaults; an
unrecognized `RequestType` throws `Invalid RequestType received`; a handler
rejection propagates unchanged. -/
def dispatch (event : CfnEvent) (ctx : Ctx) (h : ResourceHandler) :
    Except Err (String × RespData) :=
  if event.RequestType = "Create" then
    match h.onCreate with
    | some f =>
      match f event ctx with
      | Except.ok r => Except.ok (r.physicalResourceId, jsOrData r.responseData)
      | Except.error e => Except.error e
    | none => Except.ok ("None", ([] : List (String × String)))
  else if event.RequestType = "Update" then
    match h.onUpdate with
    | some f =>
      match f event ctx with
      | Except.ok r => Except.ok (r.physicalResourceId, jsOrData r.responseData)
      | Except.error e => Except.error e
    | none => Except.ok ("None", ([] : List (String × String)))
  else if event.RequestType = "Delete" then
    match h.onDelete with
    | some f =>
      match f event ctx with
      | Except.ok _ => Except.ok ("None", ([] : List (String × String)))
      | Except.error e => Except.error e
    | none => Except.ok ("None", ([] : List (String × String)))
  else Except.error { message := some "Invalid RequestType received" }

/-- The `responseDetails` literal `handleRessource` builds on the success
path: status SUCCESS, reason `OK`, the dispatched physical resource id and
response data. -/
def successDetails (pr : String × RespData) : SendResponseDetails :=
  { responseStatus := RStatus.SUCCESS,
    responseData := some pr.2,
    physicalResourceId := some pr.1,
    reason := some "OK" }

/-- The `responseDetails` literal the `catch` block of `customResourceHelper`
builds: status FAILED, reason `error.message || 'Internal Error'`, no
physical resource id and no response data. -/
def failureDetails (e : Err) : SendResponseDetails :=
  { responseStatus := RStatus.FAILED,
    responseData := none,
    physicalResourceId := none,
    reason := some (jsOrStr e.message "Internal Error") }

/-- `handleRessource` from the source: dispatch, then on success send the
SUCCESS envelope (reason `OK`) with the resolved physical resource id and
response data.  A dispatch failure propagates without sending anything. -/
def handleRessource (transport : Transport) (event : CfnEvent) (ctx : Ctx)
    (h : ResourceHandler) : List PutCall × Except Err Unit :=
  match dispatch event ctx h with
  | Except.error e => (([] : List PutCall), Except.error e)
  | Except.ok pr => sendResponse transport event ctx (successDetails pr)

/-- `handleTimeout` from the source, reduced to its two observables: the
`setTimeout` delay `context.getRemainingTimeInMillis() - 3000` (a negative
delay fires immediately) and the rejection it then produces.  The promise
has no resolution branch: it never resolves successfully. -/
def handleTimeout (ctx : Ctx) : Int × Err :=
  (ctx.remainingTimeInMillis - 3000, { message := some "Execution timed out" })

/-- The entry point returned by `customResourceHelper`, applied to one
invocation.  `factory` is the awaited result of
`resourceHandlerFactory(logger)` (it may itself reject); `timerWins` tells
whether `handleTimeout` settles the race before `handleRessource` does.
Any rejection reaching the `catch` is logged and converted into one FAILED
`sendResponse` whose reason is `error.message || 'Internal Error'`; the
result of that send is the entry point's result. -/
def customResourceHelper (factory : Except Err ResourceHandler)
    (transport : Transport) (event : CfnEvent) (ctx : Ctx)
    (timerWins : Bool) : List PutCall × Except Err Unit :=
  let raced : List PutCall × Except Err Unit :=
    match factory with
    | Except.error e => (([] : List PutCall), Except.error e)
    | Except.ok h =>
      if timerWins then
        (([] : List PutCall), Except.error (handleTimeout ctx).2)
      else
        handleRessource transport event ctx h
  match raced with
  | (puts, Except.ok _) => (puts, Except.ok ())
  | (puts, Except.error e) =>
    let sent := sendResponse transport event ctx (failureDetails e)
    (puts ++ sent.1, sent.2)

/-! ## Concrete fixtures for witnesses and counterexamples -/

/-- A concrete Create event. -/
def evCreate : CfnEvent :=
  { RequestType := "Create", ResponseURL := "https://cfn.example/resp",
    StackId := "stack-1", RequestId := "req-1", LogicalResourceId := "logical-1",
    ServiceToken := "token-1", ResourceProperties := [],
    OldResourceProperties := none, PhysicalResourceId := none }

/-- A concrete Update event. -/
def evUpdate : CfnEvent :=
  { RequestType := "Update", ResponseURL := "https://cfn.example/resp",
    StackId := "stack-2", RequestId := "req-2", LogicalResourceId := "logical-2",
    ServiceToken := "token-1", ResourceProperties := [("k", "v")],
    OldResourceProperties := some [("k", "old")], PhysicalResourceId := some "phys-old" }

/-- A concrete Delete event carrying a physical resource id. -/
def evDelete : CfnEvent :=
  { RequestType := "Delete", ResponseURL := "https://cfn.example/resp",
    StackId := "stack-3", RequestId := "req-3", LogicalResourceId := "logical-3",
    ServiceToken := "token-1", ResourceProperties := [],
    OldResourceProperties := none, PhysicalResourceId := some "phys-old" }

/-- A concrete context. -/
def ctx1 : Ctx := { logStreamName := "stream-1", remainingTimeInMillis := 10000 }

/-- A transport on which every PUT succeeds. -/
def okTransport : Transport := fun _ => Except.ok ()

/-- A transport on which PUTs of SUCCESS envelopes fail (a network error on
the first, SUCCESS, send) while PUTs of FAILED envelopes succeed. -/
def failSuccessTransport : Transport := fun p =>
  if p.envelope.Status = RStatus.SUCCESS then
    Except.error { message := some "socket hang up" }
  else Except.ok ()

/-- A handler set with no handlers registered. -/
def noHandlers : ResourceHandler :=
  { onCreate := none, onUpdate := none, onDelete := none }

/-- A concrete successful handler return value. -/
def createOkReturn : ResourceHandlerReturn :=
  { physicalResourceId := "pid-1", responseData := some [("Arn", "arn:a:b")] }

/-- A handler set whose `onCreate` resolves with physical resource id
`pid-1` and one data entry. -/
def createOkHandlers : ResourceHandler :=
  { onCreate := some (fun _ _ => Except.ok createOkReturn),
    onUpdate := none, onDelete := none }

/-- A handler set whose `onCreate` resolves with the empty string as
physical resource id. -/
def createEmptyPidHandlers : ResourceHandler :=
  { onCreate := some (fun _ _ =>
      Except.ok { physicalResourceId := "", responseData := none }),
    onUpdate := none, onDelete := none }

/-- A handler set whose `onCreate` rejects with an error whose message is
the empty string. -/
def createEmptyMsgRejectHandlers : ResourceHandler :=
  { onCreate := some (fun _ _ => Except.error { message := some "" }),
    onUpdate := none, onDelete := none }

/-- A handler set whose `onCreate` rejects with message `boom`. -/
def createBoomHandlers : ResourceHandler :=
  { onCreate := some (fun _ _ => Except.error { message := some "boom" }),
    onUpdate := none, onDelete := none }

/-- A handler set whose `onDelete` resolves. -/
def deleteOkHandlers : ResourceHandler :=
  { onCreate := none, onUpdate := none,
    onDelete := some (fun _ _ => Except.ok ()) }

/-! ## Shared structural lemmas -/

lemma sendResponse_fst (t : Transport) (e : CfnEvent) (c : Ctx) (d : SendResponseDetails) :
    (sendResponse t e c d).1 = [mkPut e c d] := rfl

lemma sendResponse_snd_ok (t : Transport) (e : CfnEvent) (c : Ctx) (d : SendResponseDetails)
    (h : t (mkPut e c d) = Except.ok ()) : (sendResponse t e c d).2 = Except.ok () := by
  simp [sendResponse, h]

lemma sendResponse_snd_err (t : Transport) (e : CfnEvent) (c : Ctx) (d : SendResponseDetails)
    (er : Err) (h : t (mkPut e c d) = Except.error er) :
    (sendResponse t e c d).2 = Except.error er := by
  simp [sendResponse, h]

/-- Every PUT the entry point performs was built by `mkPut` from the
incoming event and context, for some details record. -/
lemma helper_puts_mkPut (factory : Except Err ResourceHandler) (t : Transport)
    (e : CfnEvent) (c : Ctx) (w : Bool) (p : PutCall)
    (hp : p ∈ (customResourceHelper factory t e c w).1) :
    ∃ d, p = mkPut e c d := by
  rcases factory with er | h
  · simp [customResourceHelper, sendResponse] at hp
    exact ⟨_, hp⟩
  · cases w
    · rcases hd : dispatch e c h with er | pr
      · simp [customResourceHelper, handleRessource, hd, sendResponse] at hp
        exact ⟨_, hp⟩
      · rcases ht : t (mkPut e c (successDetails pr)) with er2 | u
        · simp [customResourceHelper, handleRessource, hd, sendResponse, ht] at hp
          rcases hp with hp | hp
          · exact ⟨_, hp⟩
          · exact ⟨_, hp⟩
        · simp [customResourceHelper, handleRessource, hd, sendResponse, ht] at hp
          exact ⟨_, hp⟩
    · simp [customResourceHelper, sendResponse] at hp
      exact ⟨_, hp⟩

/-- The entry point performs at least one and at most two PUT attempts. -/
lemma helper_puts_length (factory : Except Err ResourceHandler) (t : Transport)
    (e : CfnEvent) (c : Ctx) (w : Bool) :
    1 ≤ (customResourceHelper factory t e c w).1.length ∧
      (customResourceHelper factory t e c w).1.length ≤ 2 := by
  rcases factory with er | h
  · simp [customResourceHelper, sendResponse]
  · cases w
    · rcases hd : dispatch e c h with er | pr
      · simp [customResourceHelper, handleRessource, hd, sendResponse]
      · rcases ht : t (mkPut e c (successDetails pr)) with u | er2
        · simp [customResourceHelper, handleRessource, hd, sendResponse, ht]
        · simp [customResourceHelper, handleRessource, hd, sendResponse, ht]
    · simp [customResourceHelper, sendResponse]

/-- When every PUT on the transport succeeds, the entry point performs
exactly one PUT. -/
lemma helper_puts_length_ok (factory : Except Err ResourceHandler) (t : Transport)
    (e : CfnEvent) (c : Ctx) (w : Bool) (htr : ∀ q, t q = Except.ok ()) :
    (customResourceHelper factory t e c w).1.length = 1 := by
  rcases factory with er | h
  · simp [customResourceHelper, sendResponse]
  · cases w
    · rcases hd : dispatch e c h with er | pr
      · simp [customResourceHelper, handleRessource, hd, sendResponse]
      · simp [customResourceHelper, handleRessource, hd, sendResponse, htr]
    · simp [customResourceHelper, sendResponse]

/-- A handler set whose `onUpdate` resolves with physical resource id
`pid-2` and no response data. -/
def updateOkHandlers : ResourceHandler :=
  { onCreate := none,
    onUpdate := some (fun _ _ =>
      Except.ok { physicalResourceId := "pid-2", responseData := none }),
    onDelete := none }

/-- A Create event whose StackId contains a non-ASCII character. -/
def evAccent : CfnEvent := { evCreate with StackId := "é" }

/-- An event with the unrecognized RequestType `Replace`. -/
def evReplace : CfnEvent := { evCreate with RequestType := "Replace", RequestId := "req-4" }

lemma utf8Size_of_ascii (c : Char) (h : c.toNat < 128) : c.utf8Size = 1 := by
  unfold Char.utf8Size
  rw [if_pos]
  rw [UInt32.le_def, BitVec.le_def]
  have h2 : c.val.toBitVec.toNat < 128 := h
  simp [UInt32.ofNatCore]
  omega

lemma utf8Len_of_ascii (cs : List Char) (h : ∀ c ∈ cs, c.toNat < 128) :
    String.utf8Len cs = cs.length := by
  induction cs with
  | nil => rfl
  | cons c cs ih =>
    rw [String.utf8Len_cons, utf8Size_of_ascii c (h c (by simp)),
      ih (fun c hc => h c (by simp [hc])), List.length_cons]

lemma foldl_jsLen_of_ascii (cs : List Char) (n : Nat) (h : ∀ c ∈ cs, c.toNat < 128) :
    cs.foldl (fun n c => n + (if c.toNat ≥ 0x10000 then 2 else 1)) n = n + cs.length := by
  induction cs generalizing n with
  | nil => simp
  | cons c cs ih =>
    have hc : c.toNat < 128 := h c (by simp)
    rw [List.foldl_cons, if_neg (by omega), ih (n + 1) (fun c hc => h c (by simp [hc])),
      List.length_cons]
    omega

/-- For a pure-ASCII string the JavaScript length agrees with the UTF-8
byte length. -/
lemma jsStringLength_eq_utf8ByteSize_of_ascii (s : String)
    (h : ∀ c ∈ s.data, c.toNat < 128) : jsStringLength s = s.utf8ByteSize := by
  cases s with
  | mk cs =>
    rw [jsStringLength, String.utf8ByteSize_mk, utf8Len_of_ascii cs h,
      foldl_jsLen_of_ascii cs 0 h, Nat.zero_add]

/-- The physical resource id written into any envelope is never the empty
string: `physicalResourceId || 'None'`. -/
lemma mkEnvelope_pid_ne_empty (e : CfnEvent) (c : Ctx) (d : SendResponseDetails) :
    (mkEnvelope e c d).PhysicalResourceId ≠ "" := by
  show jsOrStr d.physicalResourceId "None" ≠ ""
  rcases d.physicalResourceId with _ | s
  · simp [jsOrStr]
  · by_cases hs : s = "" <;> simp [jsOrStr, hs]

/-! ## Claim theorems -/

/-- Claim C8 (amended): every callback is a single HTTP PUT to
`event.ResponseURL` whose JSON body has exactly the top-level fields
Status, Reason, PhysicalResourceId, StackId, RequestId, LogicalResourceId
and Data with exactly that capitalization, sent with an empty content-type
header and a content-length header equal to the body's length in UTF-16
code units (JavaScript `responseBody.length`) — which agrees with the
body's byte length only when the body is pure ASCII. -/
theorem C8_wire_format (t : Transport) (e : CfnEvent) (c : Ctx) (d : SendResponseDetails) :
    (sendResponse t e c d).1 = [mkPut e c d] ∧
    (mkPut e c d).url = e.ResponseURL ∧
    (mkPut e c d).contentType = "" ∧
    (mkPut e c d).body = renderObj (envelopeKeyVals (mkEnvelope e c d)) ∧
    (envelopeKeyVals (mkEnvelope e c d)).map Prod.fst =
      ["Status", "Reason", "PhysicalResourceId", "StackId", "RequestId",
       "LogicalResourceId", "Data"] ∧
    (mkPut e c d).contentLength = jsStringLength (mkPut e c d).body ∧
    ((∀ ch ∈ (mkPut e c d).body.data, ch.toNat < 128) →
      (mkPut e c d).contentLength = (mkPut e c d).body.utf8ByteSize) := by
  refine ⟨rfl, rfl, rfl, rfl, rfl, ?_, ?_⟩
  · simp only [mkPut]
  · intro h
    have h2 := jsStringLength_eq_utf8ByteSize_of_ascii (mkPut e c d).body h
    simp only [mkPut] at h2 ⊢
    exact h2

set_option maxRecDepth 4096 in
/-- Witness for C8 at a concrete ASCII input: one PUT is attempted, and the
content-length equals the byte length because this body is pure ASCII. -/
theorem C8_wire_format_witness :
    (sendResponse okTransport evCreate ctx1 (successDetails ("pid-1", []))).1 =
      [mkPut evCreate ctx1 (successDetails ("pid-1", []))] ∧
    (mkPut evCreate ctx1 (successDetails ("pid-1", []))).contentLength =
      (mkPut evCreate ctx1 (successDetails ("pid-1", []))).body.utf8ByteSize :=
  ⟨(C8_wire_format okTransport evCreate ctx1 (successDetails ("pid-1", []))).1,
   (C8_wire_format okTransport evCreate ctx1 (successDetails ("pid-1", []))).2.2.2.2.2.2
     (by decide)⟩

set_option maxRecDepth 4096 in
/-- Counterexample to claim C8 as stated: on an event whose StackId is `é`
the single PUT of a run carries a content-length header of 138 (UTF-16 code
units, `responseBody.length`) while the body is 139 bytes long in UTF-8, so
the content-length header is not the body's byte length. -/
theorem C8_counterexample :
    ((customResourceHelper (Except.ok noHandlers) okTransport evAccent ctx1 false).1.map
      (fun p => (p.contentLength, p.body.utf8ByteSize))) = [(138, 139)] ∧
    (138 : Nat) ≠ 139 := by
  exact ⟨by decide, by decide⟩

/-- Claim C10 (confirmed): every envelope ever sent has a non-empty
PhysicalResourceId, and whenever the physical resource id supplied to the
sender is absent or the empty string the envelope carries the sentinel
`None`. -/
theorem C10_nonempty_physical_id (factory : Except Err ResourceHandler)
    (t : Transport) (e : CfnEvent) (c : Ctx) (w : Bool) (d : SendResponseDetails) :
    (mkEnvelope e c d).PhysicalResourceId ≠ "" ∧
    ((d.physicalResourceId = none ∨ d.physicalResourceId = some "") →
      (mkEnvelope e c d).PhysicalResourceId = "None") ∧
    ∀ p ∈ (customResourceHelper factory t e c w).1,
      p.envelope.PhysicalResourceId ≠ "" := by
  refine ⟨mkEnvelope_pid_ne_empty e c d, ?_, ?_⟩
  · intro hd
    show jsOrStr d.physicalResourceId "None" = "None"
    rcases hd with hd | hd <;> simp [hd, jsOrStr]
  · intro p hp
    obtain ⟨d2, rfl⟩ := helper_puts_mkPut factory t e c w p hp
    exact mkEnvelope_pid_ne_empty e c d2

set_option maxRecDepth 4096 in
/-- Witness for C10 at a concrete input: the Create handler returned the
empty string as physical resource id, and the envelope of the PUT actually
performed carries `None`. -/
theorem C10_nonempty_physical_id_witness :
    (mkEnvelope evCreate ctx1 (successDetails ("", []))).PhysicalResourceId = "None" ∧
    (mkPut evCreate ctx1 (successDetails ("", []))).envelope.PhysicalResourceId ≠ "" :=
  ⟨(C10_nonempty_physical_id (Except.ok createEmptyPidHandlers) okTransport evCreate
      ctx1 false (successDetails ("", []))).2.1 (Or.inr rfl),
   (C10_nonempty_physical_id (Except.ok createEmptyPidHandlers) okTransport evCreate
      ctx1 false (successDetails ("", []))).2.2
     (mkPut evCreate ctx1 (successDetails ("", []))) (by decide)⟩

/-- Claim C6 (confirmed): `handleTimeout` never resolves (its result type
has no resolution branch); its timer delay is
`context.getRemainingTimeInMillis() - 3000` milliseconds and its rejection
carries the message `Execution timed out`; when the timer settles the race
first the entry point sends exactly one FAILED envelope whose reason is
`Execution timed out`. -/
theorem C6_deadline_guard (c : Ctx) (h : ResourceHandler) (t : Transport) (e : CfnEvent) :
    (handleTimeout c).1 = c.remainingTimeInMillis - 3000 ∧
    (handleTimeout c).2.message = some "Execution timed out" ∧
    (customResourceHelper (Except.ok h) t e c true).1 =
      [mkPut e c (failureDetails (handleTimeout c).2)] ∧
    (mkEnvelope e c (failureDetails (handleTimeout c).2)).Status = RStatus.FAILED ∧
    (mkEnvelope e c (failureDetails (handleTimeout c).2)).Reason = "Execution timed out" := by
  refine ⟨rfl, rfl, rfl, rfl, ?_⟩
  simp [mkEnvelope, failureDetails, handleTimeout, jsOrStr]

/-- Claim C3 (confirmed): a Create or Update event with no matching
registered handler is treated as success: the single envelope sent has
Status SUCCESS, PhysicalResourceId `None` and empty Data. -/
theorem C3_no_handler_defaults (e : CfnEvent) (c : Ctx) (t : Transport) (h : ResourceHandler)
    (hreq : (e.RequestType = "Create" ∧ h.onCreate = none) ∨
            (e.RequestType = "Update" ∧ h.onUpdate = none))
    (htr : ∀ q, t q = Except.ok ()) :
    (customResourceHelper (Except.ok h) t e c false).1 =
      [mkPut e c (successDetails ("None", []))] ∧
    (mkEnvelope e c (successDetails ("None", []))).Status = RStatus.SUCCESS ∧
    (mkEnvelope e c (successDetails ("None", []))).PhysicalResourceId = "None" ∧
    (mkEnvelope e c (successDetails ("None", []))).Data = ([] : RespData) := by
  have hd : dispatch e c h = Except.ok ("None", ([] : RespData)) := by
    rcases hreq with ⟨h1, h2⟩ | ⟨h1, h2⟩ <;> simp [dispatch, h1, h2]
  refine ⟨?_, rfl, ?_, rfl⟩
  · simp [customResourceHelper, handleRessource, hd, sendResponse, htr]
  · simp [mkEnvelope, successDetails, jsOrStr]

/-- Witness for C3: a Create event dispatched against an empty handler set
produces that single SUCCESS/None/empty envelope. -/
theorem C3_no_handler_defaults_witness :
    (customResourceHelper (Except.ok noHandlers) okTransport evCreate ctx1 false).1 =
      [mkPut evCreate ctx1 (successDetails ("None", []))] ∧
    (mkEnvelope evCreate ctx1 (successDetails ("None", []))).Status = RStatus.SUCCESS ∧
    (mkEnvelope evCreate ctx1 (successDetails ("None", []))).PhysicalResourceId = "None" ∧
    (mkEnvelope evCreate ctx1 (successDetails ("None", []))).Data = ([] : RespData) :=
  C3_no_handler_defaults evCreate ctx1 okTransport noHandlers (Or.inl ⟨rfl, rfl⟩)
    (fun _ => rfl)

/-- Claim C4 (confirmed): an event whose RequestType is none of Create,
Update, Delete makes dispatch fail with `Invalid RequestType received`
without invoking any handler (the run does not depend on the handler set),
and exactly one FAILED PUT is attempted — for every transport, including a
failing one — whose Reason contains `Invalid RequestType`.  The fixed
`false` race flag models that a synchronously thrown rejection settles the
race before any timer macrotask can fire. -/
theorem C4_invalid_request_type (e : CfnEvent) (c : Ctx) (t : Transport) (h : ResourceHandler)
    (hC : e.RequestType ≠ "Create") (hU : e.RequestType ≠ "Update")
    (hD : e.RequestType ≠ "Delete") :
    dispatch e c h = Except.error { message := some "Invalid RequestType received" } ∧
    (customResourceHelper (Except.ok h) t e c false).1 =
      [mkPut e c (failureDetails { message := some "Invalid RequestType received" })] ∧
    (mkEnvelope e c
      (failureDetails { message := some "Invalid RequestType received" })).Status =
      RStatus.FAILED ∧
    (∃ a b, (mkEnvelope e c
      (failureDetails { message := some "Invalid RequestType received" })).Reason =
      a ++ "Invalid RequestType" ++ b) ∧
    ∀ h2 : ResourceHandler,
      customResourceHelper (Except.ok h2) t e c false =
        customResourceHelper (Except.ok h) t e c false := by
  have hd : ∀ h3 : ResourceHandler,
      dispatch e c h3 = Except.error { message := some "Invalid RequestType received" } := by
    intro h3
    simp [dispatch, hC, hU, hD]
  refine ⟨hd h, ?_, rfl, ⟨"", " received", ?_⟩, ?_⟩
  · simp [customResourceHelper, handleRessource, hd h, sendResponse]
  · simp [mkEnvelope, failureDetails, jsOrStr]
  · intro h2
    simp [customResourceHelper, handleRessource, hd h, hd h2]

/-- Witness for C4 at the RequestType `Replace`: dispatch fails with the
Invalid RequestType error, one FAILED PUT results, and the run is the same
with a completely different handler set. -/
theorem C4_invalid_request_type_witness :
    dispatch evReplace ctx1 createOkHandlers =
      Except.error { message := some "Invalid RequestType received" } ∧
    (customResourceHelper (Except.ok createOkHandlers) okTransport evReplace ctx1 false).1 =
      [mkPut evReplace ctx1
        (failureDetails { message := some "Invalid RequestType received" })] ∧
    customResourceHelper (Except.ok noHandlers) okTransport evReplace ctx1 false =
      customResourceHelper (Except.ok createOkHandlers) okTransport evReplace ctx1 false :=
  ⟨(C4_invalid_request_type evReplace ctx1 okTransport createOkHandlers
      (by decide) (by decide) (by decide)).1,
   (C4_invalid_request_type evReplace ctx1 okTransport createOkHandlers
      (by decide) (by decide) (by decide)).2.1,
   (C4_invalid_request_type evReplace ctx1 okTransport createOkHandlers
      (by decide) (by decide) (by decide)).2.2.2.2 noHandlers⟩

/-- Claim C9 (confirmed): every successfully dispatched Delete event —
with no `onDelete` handler or with one that resolves — produces a single
SUCCESS envelope with PhysicalResourceId `None` and empty Data, for every
incoming `event.PhysicalResourceId` (the incoming id is never echoed). -/
theorem C9_delete_defaults (e : CfnEvent) (c : Ctx) (t : Transport) (h : ResourceHandler)
    (hreq : e.RequestType = "Delete")
    (hdel : h.onDelete = none ∨
      ∃ g : DelHandler, h.onDelete = some g ∧ g e c = Except.ok ())
    (htr : ∀ q, t q = Except.ok ()) :
    (customResourceHelper (Except.ok h) t e c false).1 =
      [mkPut e c (successDetails ("None", []))] ∧
    (mkEnvelope e c (successDetails ("None", []))).Status = RStatus.SUCCESS ∧
    (mkEnvelope e c (successDetails ("None", []))).PhysicalResourceId = "None" ∧
    (mkEnvelope e c (successDetails ("None", []))).Data = ([] : RespData) := by
  have hd : dispatch e c h = Except.ok ("None", ([] : RespData)) := by
    rcases hdel with h2 | ⟨g, hg, hgok⟩
    · simp [dispatch, hreq, h2]
    · simp [dispatch, hreq, hg, hgok]
  refine ⟨?_, rfl, ?_, rfl⟩
  · simp [customResourceHelper, handleRessource, hd, sendResponse, htr]
  · simp [mkEnvelope, successDetails, jsOrStr]

/-- Witness for C9: a Delete event carrying PhysicalResourceId `phys-old`,
with a registered resolving `onDelete`, still yields the `None` sentinel. -/
theorem C9_delete_defaults_witness :
    (customResourceHelper (Except.ok deleteOkHandlers) okTransport evDelete ctx1 false).1 =
      [mkPut evDelete ctx1 (successDetails ("None", []))] ∧
    (mkEnvelope evDelete ctx1 (successDetails ("None", []))).Status = RStatus.SUCCESS ∧
    (mkEnvelope evDelete ctx1 (successDetails ("None", []))).PhysicalResourceId = "None" ∧
    (mkEnvelope evDelete ctx1 (successDetails ("None", []))).Data = ([] : RespData) :=
  C9_delete_defaults evDelete ctx1 okTransport deleteOkHandlers rfl
    (Or.inr ⟨fun _ _ => Except.ok (), rfl, rfl⟩) (fun _ => rfl)

lemma jsOrData_eq_getD (x : Option RespData) : jsOrData x = x.getD [] := by
  cases x <;> rfl

/-- Claim C2 (amended): for a Create or Update event whose registered
handler resolves, exactly one SUCCESS envelope is sent with Reason `OK`,
whose PhysicalResourceId equals the handler's physicalResourceId when that
string is non-empty (an empty id is replaced by the sentinel `None` on the
wire) and whose Data equals the handler's responseData (empty when the
handler omitted it). -/
theorem C2_success_envelope (e : CfnEvent) (c : Ctx) (t : Transport) (h : ResourceHandler)
    (f : CrUpHandler) (r : ResourceHandlerReturn)
    (hmatch : (e.RequestType = "Create" ∧ h.onCreate = some f) ∨
              (e.RequestType = "Update" ∧ h.onUpdate = some f))
    (hres : f e c = Except.ok r)
    (htr : ∀ q, t q = Except.ok ()) :
    (customResourceHelper (Except.ok h) t e c false).1 =
      [mkPut e c (successDetails (r.physicalResourceId, r.responseData.getD []))] ∧
    (mkEnvelope e c (successDetails (r.physicalResourceId, r.responseData.getD []))).Status =
      RStatus.SUCCESS ∧
    (mkEnvelope e c (successDetails (r.physicalResourceId, r.responseData.getD []))).Reason =
      "OK" ∧
    (mkEnvelope e c
        (successDetails (r.physicalResourceId, r.responseData.getD []))).PhysicalResourceId =
      (if r.physicalResourceId = "" then "None" else r.physicalResourceId) ∧
    (mkEnvelope e c (successDetails (r.physicalResourceId, r.responseData.getD []))).Data =
      r.responseData.getD [] := by
  have hd : dispatch e c h =
      Except.ok (r.physicalResourceId, r.responseData.getD []) := by
    rcases hmatch with ⟨h1, h2⟩ | ⟨h1, h2⟩ <;>
      simp [dispatch, h1, h2, hres, jsOrData_eq_getD]
  refine ⟨?_, rfl, ?_, ?_, rfl⟩
  · simp [customResourceHelper, handleRessource, hd, sendResponse, htr]
  · simp [mkEnvelope, successDetails, jsOrStr]
  · simp [mkEnvelope, successDetails, jsOrStr]

/-- Witness for C2: the concrete `onCreate` handler resolving with
`pid-1` and one data entry produces exactly that single envelope. -/
theorem C2_success_envelope_witness :
    (customResourceHelper (Except.ok createOkHandlers) okTransport evCreate ctx1 false).1 =
      [mkPut evCreate ctx1
        (successDetails (createOkReturn.physicalResourceId,
          createOkReturn.responseData.getD []))] ∧
    (mkEnvelope evCreate ctx1
        (successDetails (createOkReturn.physicalResourceId,
          createOkReturn.responseData.getD []))).Status = RStatus.SUCCESS ∧
    (mkEnvelope evCreate ctx1
        (successDetails (createOkReturn.physicalResourceId,
          createOkReturn.responseData.getD []))).Reason = "OK" ∧
    (mkEnvelope evCreate ctx1
        (successDetails (createOkReturn.physicalResourceId,
          createOkReturn.responseData.getD []))).PhysicalResourceId =
      (if createOkReturn.physicalResourceId = "" then "None"
       else createOkReturn.physicalResourceId) ∧
    (mkEnvelope evCreate ctx1
        (successDetails (createOkReturn.physicalResourceId,
          createOkReturn.responseData.getD []))).Data =
      createOkReturn.responseData.getD [] :=
  C2_success_envelope evCreate ctx1 okTransport createOkHandlers
    (fun _ _ => Except.ok createOkReturn) createOkReturn
    (Or.inl ⟨rfl, rfl⟩) rfl (fun _ => rfl)

set_option maxRecDepth 4096 in
/-- Counterexample to claim C2 as stated: an `onCreate` handler resolving
with physicalResourceId `""` yields an envelope whose PhysicalResourceId is
`None`, not the value the handler returned. -/
theorem C2_counterexample :
    ((customResourceHelper (Except.ok createEmptyPidHandlers) okTransport evCreate
        ctx1 false).1.map (fun p => p.envelope.PhysicalResourceId)) = ["None"] ∧
    ("None" : String) ≠ "" := by
  exact ⟨by decide, by decide⟩

/-- Claim C5 (amended): when the matched handler rejects, the rejection
propagates unchanged out of dispatch; the single envelope sent is FAILED
and its Reason is the handler's error message when that message is
non-empty, and `Internal Error` when the rejection carries no message or an
empty message (`error.message || 'Internal Error'`). -/
theorem C5_handler_rejection (e : CfnEvent) (c : Ctx) (t : Transport) (h : ResourceHandler)
    (f : CrUpHandler) (g : DelHandler) (er : Err)
    (hmatch :
      (e.RequestType = "Create" ∧ h.onCreate = some f ∧ f e c = Except.error er) ∨
      (e.RequestType = "Update" ∧ h.onUpdate = some f ∧ f e c = Except.error er) ∨
      (e.RequestType = "Delete" ∧ h.onDelete = some g ∧ g e c = Except.error er)) :
    dispatch e c h = Except.error er ∧
    (customResourceHelper (Except.ok h) t e c false).1 =
      [mkPut e c (failureDetails er)] ∧
    (mkEnvelope e c (failureDetails er)).Status = RStatus.FAILED ∧
    (mkEnvelope e c (failureDetails er)).Reason =
      (match er.message with
       | none => "Internal Error"
       | some s => if s = "" then "Internal Error" else s) := by
  have hd : dispatch e c h = Except.error er := by
    rcases hmatch with ⟨h1, h2, h3⟩ | ⟨h1, h2, h3⟩ | ⟨h1, h2, h3⟩ <;>
      simp [dispatch, h1, h2, h3]
  refine ⟨hd, ?_, rfl, ?_⟩
  · simp [customResourceHelper, handleRessource, hd, sendResponse]
  · rcases er with ⟨m⟩
    rcases m with _ | s
    · simp [mkEnvelope, failureDetails, jsOrStr]
    · by_cases hs : s = "" <;> simp [mkEnvelope, failureDetails, jsOrStr, hs]

/-- Witness for C5: a handler rejecting with message `boom` produces a
FAILED envelope whose Reason is `boom`. -/
theorem C5_handler_rejection_witness :
    dispatch evCreate ctx1 createBoomHandlers =
      Except.error { message := some "boom" } ∧
    (mkEnvelope evCreate ctx1 (failureDetails { message := some "boom" })).Reason =
      "boom" :=
  ⟨(C5_handler_rejection evCreate ctx1 okTransport createBoomHandlers
      (fun _ _ => Except.error { message := some "boom" }) (fun _ _ => Except.ok ())
      { message := some "boom" } (Or.inl ⟨rfl, rfl, rfl⟩)).1,
   ((C5_handler_rejection evCreate ctx1 okTransport createBoomHandlers
      (fun _ _ => Except.error { message := some "boom" }) (fun _ _ => Except.ok ())
      { message := some "boom" } (Or.inl ⟨rfl, rfl, rfl⟩)).2.2.2).trans (by decide)⟩

set_option maxRecDepth 4096 in
/-- Counterexample to claim C5 as stated: a handler rejecting with the
empty string as its error message yields Reason `Internal Error`, which is
not the handler's error message. -/
theorem C5_counterexample :
    ((customResourceHelper (Except.ok createEmptyMsgRejectHandlers) okTransport evCreate
        ctx1 false).1.map (fun p => p.envelope.Reason)) = ["Internal Error"] ∧
    ("Internal Error" : String) ≠ "" := by
  exact ⟨by decide, by decide⟩

/-- Claim C1 (amended): every invocation performs at least one and at most
two PUT attempts, all to `event.ResponseURL`; when PUT delivery always
succeeds exactly one PUT is performed.  A second PUT occurs only on the
path where the first PUT itself failed and the catch block sends a FAILED
envelope. -/
theorem C1_put_uniqueness (factory : Except Err ResourceHandler) (t : Transport)
    (e : CfnEvent) (c : Ctx) (w : Bool) :
    1 ≤ (customResourceHelper factory t e c w).1.length ∧
    (customResourceHelper factory t e c w).1.length ≤ 2 ∧
    (∀ p ∈ (customResourceHelper factory t e c w).1, p.url = e.ResponseURL) ∧
    ((∀ q, t q = Except.ok ()) →
      (customResourceHelper factory t e c w).1.length = 1) := by
  refine ⟨(helper_puts_length factory t e c w).1, (helper_puts_length factory t e c w).2,
    ?_, helper_puts_length_ok factory t e c w⟩
  intro p hp
  obtain ⟨d, rfl⟩ := helper_puts_mkPut factory t e c w p hp
  rfl

/-- Witness for C1 at a concrete input with a transport on which every PUT
succeeds: exactly one PUT. -/
theorem C1_put_uniqueness_witness :
    1 ≤ (customResourceHelper (Except.ok createOkHandlers) okTransport evCreate
          ctx1 false).1.length ∧
    (customResourceHelper (Except.ok createOkHandlers) okTransport evCreate
          ctx1 false).1.length ≤ 2 ∧
    (customResourceHelper (Except.ok createOkHandlers) okTransport evCreate
          ctx1 false).1.length = 1 :=
  ⟨(C1_put_uniqueness (Except.ok createOkHandlers) okTransport evCreate ctx1 false).1,
   (C1_put_uniqueness (Except.ok createOkHandlers) okTransport evCreate ctx1 false).2.1,
   (C1_put_uniqueness (Except.ok createOkHandlers) okTransport evCreate ctx1 false).2.2.2
     (fun _ => rfl)⟩

set_option maxRecDepth 4096 in
/-- Counterexample to claim C1 as stated: on the path where the handler
succeeds but the first (SUCCESS) PUT fails, the catch block performs a
second PUT, so this execution path performs more than one PUT. -/
theorem C1_counterexample :
    (customResourceHelper (Except.ok updateOkHandlers) failSuccessTransport evUpdate
        ctx1 false).1.length = 2 ∧
    ¬ (customResourceHelper (Except.ok updateOkHandlers) failSuccessTransport evUpdate
        ctx1 false).1.length ≤ 1 := by
  exact ⟨by decide, by decide⟩

/-- Claim C7 (amended): when the outbound PUT fails, `sendResponse` logs
and re-raises the delivery error; the orchestrator's catch block then
converts it into one further FAILED PUT attempt, and the entry point's
promise rejects exactly when that second PUT also fails — it resolves
successfully when the second PUT succeeds. -/
theorem C7_delivery_failure (t : Transport) (e : CfnEvent) (c : Ctx)
    (h : ResourceHandler) (pr : String × RespData) (er : Err)
    (hd : dispatch e c h = Except.ok pr)
    (ht1 : t (mkPut e c (successDetails pr)) = Except.error er) :
    (∀ d er2, t (mkPut e c d) = Except.error er2 →
      (sendResponse t e c d).2 = Except.error er2) ∧
    (customResourceHelper (Except.ok h) t e c false).1 =
      [mkPut e c (successDetails pr), mkPut e c (failureDetails er)] ∧
    (customResourceHelper (Except.ok h) t e c false).2 =
      (sendResponse t e c (failureDetails er)).2 ∧
    (t (mkPut e c (failureDetails er)) = Except.ok () →
      (customResourceHelper (Except.ok h) t e c false).2 = Except.ok ()) ∧
    (∀ er2, t (mkPut e c (failureDetails er)) = Except.error er2 →
      (customResourceHelper (Except.ok h) t e c false).2 = Except.error er2) := by
  refine ⟨fun d er2 ht => sendResponse_snd_err t e c d er2 ht, ?_, ?_, ?_, ?_⟩
  · simp [customResourceHelper, handleRessource, hd, sendResponse, ht1]
  · simp [customResourceHelper, handleRessource, hd, sendResponse, ht1]
  · intro h2
    simp [customResourceHelper, handleRessource, hd, sendResponse, ht1, h2]
  · intro er2 h2
    simp [customResourceHelper, handleRessource, hd, sendResponse, ht1, h2]

set_option maxRecDepth 4096 in
/-- Witness for C7: with the transport failing the SUCCESS PUT but
delivering the FAILED PUT, the run makes both PUT attempts and resolves. -/
theorem C7_delivery_failure_witness :
    (customResourceHelper (Except.ok createOkHandlers) failSuccessTransport evCreate
        ctx1 false).1 =
      [mkPut evCreate ctx1
        (successDetails (createOkReturn.physicalResourceId, [("Arn", "arn:a:b")])),
       mkPut evCreate ctx1 (failureDetails { message := some "socket hang up" })] ∧
    (customResourceHelper (Except.ok createOkHandlers) failSuccessTransport evCreate
        ctx1 false).2 = Except.ok () :=
  ⟨(C7_delivery_failure failSuccessTransport evCreate ctx1 createOkHandlers
      (createOkReturn.physicalResourceId, [("Arn", "arn:a:b")])
      { message := some "socket hang up" } rfl rfl).2.1,
   (C7_delivery_failure failSuccessTransport evCreate ctx1 createOkHandlers
      (createOkReturn.physicalResourceId, [("Arn", "arn:a:b")])
      { message := some "socket hang up" } rfl rfl).2.2.2.1 rfl⟩

set_option maxRecDepth 4096 in
/-- Counterexample to claim C7 as stated: when the first outbound PUT
fails, the delivery failure is converted into a further CloudFormation
callback (a second PUT is attempted) and the entry point's promise
resolves successfully instead of rejecting, because the second PUT
succeeded. -/
theorem C7_counterexample :
    (customResourceHelper (Except.ok createOkHandlers) failSuccessTransport evCreate
        ctx1 false).2 = Except.ok () ∧
    (customResourceHelper (Except.ok createOkHandlers) failSuccessTransport evCreate
        ctx1 false).1.length = 2 := by
  exact ⟨rfl, by decide⟩
